import Mathlib

/-!
Shallow embedding of the IAM Access Control System (Express + SQLite RBAC
backend).  The relational store declared in `server/database/setup.js` is
modelled as lists of rows; the route handlers of `server/routes/users.js`,
`server/routes/modules.js` (module CRUD and the auth routes bundled in that
file), `server/routes/permissions.js` and the middleware of
`server/middleware/auth.js` are modelled as pure functions on that state.
Columns that no handler ever reads back (`created_at`, `updated_at`,
`password_hash` — the latter is an opaque bcrypt digest) are omitted from the
row types; SQLite's per-table AUTOINCREMENT counters are carried explicitly
as `next…Id` fields.  Fallible handlers return `Except ApiError _`; an
`error` result corresponds to the handler responding with an error before
executing any mutating statement, so the store is unchanged.
-/

namespace IAM

/-- A row of the `users` table (id, username, email). -/
structure UserRow where
  id : Nat
  username : String
  email : String
deriving DecidableEq

/-- A row of the `groups` table. -/
structure GroupRow where
  id : Nat
  name : String
  description : Option String
deriving DecidableEq

/-- A row of the `roles` table. -/
structure RoleRow where
  id : Nat
  name : String
  description : Option String
deriving DecidableEq

/-- A row of the `modules` table. -/
structure ModuleRow where
  id : Nat
  name : String
  description : Option String
deriving DecidableEq

/-- A row of the `permissions` table: an action scoped to one module. -/
structure PermissionRow where
  id : Nat
  action : String
  module_id : Nat
deriving DecidableEq

/-- The whole relational store: five entity tables, three association
tables (association-row surrogate ids and timestamps are never observed and
are dropped), and the AUTOINCREMENT counters of the entity tables.
`user_groups` holds `(user_id, group_id)`, `group_roles` holds
`(group_id, role_id)`, `role_permissions` holds `(role_id, permission_id)`. -/
structure DB where
  users : List UserRow
  groups : List GroupRow
  roles : List RoleRow
  modules : List ModuleRow
  permissions : List PermissionRow
  user_groups : List (Nat × Nat)
  group_roles : List (Nat × Nat)
  role_permissions : List (Nat × Nat)
  nextUserId : Nat
  nextGroupId : Nat
  nextRoleId : Nat
  nextModuleId : Nat
  nextPermissionId : Nat
deriving DecidableEq

/-- The canonical CRUD verbs, in the order both `seedDatabase` and the
module-creation handler iterate them. -/
def defaultActions : List String := ["create", "read", "update", "delete"]

/-- The row set of the permission-resolution join used identically by the
`checkPermission` middleware and the `POST /simulate-action` handler:
`user_groups ⋈ group_roles ⋈ role_permissions ⋈ permissions ⋈ modules`,
filtered by user id, module name and action (SQLite compares TEXT with the
default case-sensitive BINARY collation). -/
def permissionJoinRows (db : DB) (userId : Nat) (moduleName action : String) :
    List ((Nat × Nat) × (Nat × Nat) × (Nat × Nat) × PermissionRow × ModuleRow) :=
  (db.user_groups.filter (fun ug => ug.1 == userId)).flatMap fun ug =>
    (db.group_roles.filter (fun gr => gr.1 == ug.2)).flatMap fun gr =>
      (db.role_permissions.filter (fun rp => rp.1 == gr.2)).flatMap fun rp =>
        (db.permissions.filter (fun p => p.id == rp.2 && p.action == action)).flatMap fun p =>
          (db.modules.filter (fun m => m.id == p.module_id && m.name == moduleName)).map fun m =>
            (ug, gr, rp, p, m)

/-- The `COUNT(*)` returned by the resolution query. -/
def permissionPathCount (db : DB) (userId : Nat) (moduleName action : String) : Nat :=
  (permissionJoinRows db userId moduleName action).length

/-- The `checkPermission(module, action)` middleware lets the request through
exactly when the count is not zero (`row.count === 0` responds 403). -/
def checkPermissionAllows (db : DB) (userId : Nat) (moduleName action : String) : Bool :=
  !(permissionPathCount db userId moduleName action == 0)

/-- The `hasPermission` boolean computed by `POST /simulate-action`
(`row.count > 0`). -/
def simulateHasPermission (db : DB) (userId : Nat) (moduleName action : String) : Bool :=
  decide (0 < permissionPathCount db userId moduleName action)

/-- Spec-side predicate (from §4.3 of the specification): there is at least
one path user → group → role → permission → module whose permission has the
given action and whose module has exactly the given name. -/
def grantsPath (db : DB) (userId : Nat) (moduleName action : String) : Prop :=
  ∃ gid rid p m,
    (userId, gid) ∈ db.user_groups ∧
    (gid, rid) ∈ db.group_roles ∧
    (rid, p.id) ∈ db.role_permissions ∧
    p ∈ db.permissions ∧
    m ∈ db.modules ∧
    p.module_id = m.id ∧
    p.action = action ∧
    m.name = moduleName

theorem permissionPathCount_pos_iff (db : DB) (userId : Nat) (moduleName action : String) :
    0 < permissionPathCount db userId moduleName action ↔
      grantsPath db userId moduleName action := by
  unfold permissionPathCount permissionJoinRows grantsPath
  rw [List.length_pos_iff_exists_mem]
  constructor
  · rintro ⟨x, hx⟩
    simp only [List.mem_flatMap, List.mem_filter, List.mem_map, beq_iff_eq,
      Bool.and_eq_true] at hx
    obtain ⟨ug, ⟨hug, hugu⟩, gr, ⟨hgr, hgrg⟩, rp, ⟨hrp, hrpr⟩, p,
      ⟨hp, hpid, hpa⟩, m, ⟨⟨hm, hmid, hmn⟩, _⟩⟩ := hx
    refine ⟨ug.2, gr.2, p, m, ?_, ?_, ?_, hp, hm, hmid.symm, hpa, hmn⟩
    · rwa [← hugu, Prod.mk.eta]
    · rwa [← hgrg, Prod.mk.eta]
    · rw [← hrpr, hpid, Prod.mk.eta]
      exact hrp
  · rintro ⟨gid, rid, p, m, hug, hgr, hrp, hp, hm, hmid, hpa, hmn⟩
    refine ⟨((userId, gid), (gid, rid), (rid, p.id), p, m), ?_⟩
    simp only [List.mem_flatMap, List.mem_filter, List.mem_map, beq_iff_eq,
      Bool.and_eq_true]
    exact ⟨(userId, gid), ⟨hug, rfl⟩, (gid, rid), ⟨hgr, rfl⟩, (rid, p.id), ⟨hrp, rfl⟩,
      p, ⟨hp, rfl, hpa⟩, m, ⟨⟨hm, hmid.symm, hmn⟩, rfl⟩⟩

/-- C1: for every user id, module name and action, both the
`checkPermission` middleware and the `POST /simulate-action` handler answer
`true` iff at least one path user → user_groups → group_roles →
role_permissions → permissions → modules exists whose permission carries the
action and whose module carries exactly (case-sensitively) the given name.
Both are pure functions of the store (`DB → Bool`), so the resolution writes
to no table by construction. -/
theorem checkPermission_simulate_iff_path (db : DB) (userId : Nat)
    (moduleName action : String) :
    (checkPermissionAllows db userId moduleName action = true ↔
        grantsPath db userId moduleName action) ∧
      simulateHasPermission db userId moduleName action =
        checkPermissionAllows db userId moduleName action := by
  constructor
  · rw [← permissionPathCount_pos_iff]
    simp [checkPermissionAllows, Nat.pos_iff_ne_zero]
  · by_cases h : permissionPathCount db userId moduleName action = 0
    · simp [simulateHasPermission, checkPermissionAllows, h]
    · simp [simulateHasPermission, checkPermissionAllows, h, Nat.pos_of_ne_zero h]

/-- The row set of the `getUserPermissions` query of
`server/middleware/auth.js`: the same five-way join without the
module-name/action filter, projected (with `SELECT DISTINCT`, applied in
`userPermissionPairs` below) to `(module name, action)` pairs.  The query's
`ORDER BY` only fixes presentation order and is not modelled: every claim
about the result reads it as a mapping/set. -/
def userPermissionRows (db : DB) (userId : Nat) : List (String × String) :=
  (db.user_groups.filter (fun ug => ug.1 == userId)).flatMap fun ug =>
    (db.group_roles.filter (fun gr => gr.1 == ug.2)).flatMap fun gr =>
      (db.role_permissions.filter (fun rp => rp.1 == gr.2)).flatMap fun rp =>
        (db.permissions.filter (fun p => p.id == rp.2)).flatMap fun p =>
          (db.modules.filter (fun m => m.id == p.module_id)).map fun m =>
            (m.name, p.action)

/-- `getUserPermissions`: the distinct `(module, action)` rows.  The JS
handler then groups them as `{ module: [actions…] }`; the mapping sends a
module name to the set of actions paired with it here, and a module that
pairs with no action is simply absent from the object. -/
def userPermissionPairs (db : DB) (userId : Nat) : List (String × String) :=
  (userPermissionRows db userId).dedup

/-- The mapping view of `getUserPermissions`: the actions listed under one
module name (empty list ⇔ the module is absent from the returned object). -/
def permissionMapActions (db : DB) (userId : Nat) (moduleName : String) : List String :=
  (userPermissionPairs db userId).filterMap fun r =>
    if r.1 = moduleName then some r.2 else none

theorem mem_userPermissionPairs (db : DB) (userId : Nat) (mname a : String) :
    (mname, a) ∈ userPermissionPairs db userId ↔
      ∃ gid rid p m,
        (userId, gid) ∈ db.user_groups ∧
        (gid, rid) ∈ db.group_roles ∧
        (rid, p.id) ∈ db.role_permissions ∧
        p ∈ db.permissions ∧
        m ∈ db.modules ∧
        p.module_id = m.id ∧
        m.name = mname ∧
        p.action = a := by
  rw [userPermissionPairs, List.mem_dedup]
  unfold userPermissionRows
  constructor
  · intro hx
    simp only [List.mem_flatMap, List.mem_filter, List.mem_map, beq_iff_eq,
      Bool.and_eq_true] at hx
    obtain ⟨ug, ⟨hug, hugu⟩, gr, ⟨hgr, hgrg⟩, rp, ⟨hrp, hrpr⟩, p,
      ⟨hp, hpid⟩, m, ⟨hm, hmid⟩, hpr⟩ := hx
    obtain ⟨hn, ha⟩ := Prod.mk.injEq .. ▸ hpr
    refine ⟨ug.2, gr.2, p, m, ?_, ?_, ?_, hp, hm, hmid.symm, hn, ha⟩
    · rwa [← hugu, Prod.mk.eta]
    · rwa [← hgrg, Prod.mk.eta]
    · rw [← hrpr, hpid, Prod.mk.eta]
      exact hrp
  · rintro ⟨gid, rid, p, m, hug, hgr, hrp, hp, hm, hmid, hmn, hpa⟩
    simp only [List.mem_flatMap, List.mem_filter, List.mem_map, beq_iff_eq,
      Bool.and_eq_true]
    exact ⟨(userId, gid), ⟨hug, rfl⟩, (gid, rid), ⟨hgr, rfl⟩, (rid, p.id), ⟨hrp, rfl⟩,
      p, ⟨hp, rfl⟩, m, ⟨hm, hmid.symm⟩, by rw [hmn, hpa]⟩

/-- C3: `getUserPermissions(U)` is exactly the union, over every group U
belongs to, over every role of that group, of the `(module, action)` pairs of
the role's permissions; and a user belonging to no group gets the empty
mapping (the handler returns `{}`, never an error). -/
theorem getUserPermissions_is_union (db : DB) (userId : Nat) :
    (∀ mname a : String,
        (mname, a) ∈ userPermissionPairs db userId ↔
          ∃ gid rid p m,
            (userId, gid) ∈ db.user_groups ∧
            (gid, rid) ∈ db.group_roles ∧
            (rid, p.id) ∈ db.role_permissions ∧
            p ∈ db.permissions ∧
            m ∈ db.modules ∧
            p.module_id = m.id ∧
            m.name = mname ∧
            p.action = a) ∧
      ((∀ gid, (userId, gid) ∉ db.user_groups) →
        userPermissionPairs db userId = []) := by
  refine ⟨fun mname a => mem_userPermissionPairs db userId mname a, fun h => ?_⟩
  have hfilter : db.user_groups.filter (fun ug => ug.1 == userId) = [] := by
    rw [List.filter_eq_nil_iff]
    intro ug hug
    simp only [beq_iff_eq]
    intro hcontra
    exact h ug.2 (by rwa [← hcontra, Prod.mk.eta])
  simp [userPermissionPairs, userPermissionRows, hfilter]

/-- The error outcomes a handler can respond with before mutating anything.
`notFound`/`conflict` carry the literal `error` message of the JSON
response; `selfDeletion` is the 400 response of `DELETE /users/:id` on the
caller's own id; `uniqueViolation` is an `INSERT` rejected by a `UNIQUE`
constraint (surfaced by the routes as a 500). -/
inductive ApiError where
  | notFound (msg : String)
  | conflict (msg : String)
  | selfDeletion
  | uniqueViolation
deriving DecidableEq

/-- `POST /users` (and, identically, `POST /register` in the auth routes):
reject when the username or email is already taken, else insert one row. -/
def createUser (db : DB) (username email : String) : Except ApiError DB :=
  if db.users.any (fun u => u.username == username || u.email == email) then
    .error (.conflict "Username or email already exists")
  else
    .ok { db with
      users := db.users ++ [⟨db.nextUserId, username, email⟩],
      nextUserId := db.nextUserId + 1 }

/-- `POST /groups`. -/
def createGroup (db : DB) (name : String) (description : Option String) :
    Except ApiError DB :=
  if db.groups.any (fun g => g.name == name) then
    .error (.conflict "Group name already exists")
  else
    .ok { db with
      groups := db.groups ++ [⟨db.nextGroupId, name, description⟩],
      nextGroupId := db.nextGroupId + 1 }

/-- `POST /roles`. -/
def createRole (db : DB) (name : String) (description : Option String) :
    Except ApiError DB :=
  if db.roles.any (fun r => r.name == name) then
    .error (.conflict "Role name already exists")
  else
    .ok { db with
      roles := db.roles ++ [⟨db.nextRoleId, name, description⟩],
      nextRoleId := db.nextRoleId + 1 }

/-- `POST /permissions` (the action string was validated upstream by the Joi
schema to be one of the four verbs): module must exist, the
`(action, module)` pair must be fresh, then insert one row. -/
def createPermission (db : DB) (action : String) (module_id : Nat) :
    Except ApiError DB :=
  if !(db.modules.any (fun m => m.id == module_id)) then
    .error (.notFound "Module not found")
  else if db.permissions.any (fun p => p.action == action && p.module_id == module_id) then
    .error (.conflict "Permission already exists for this module and action")
  else
    .ok { db with
      permissions := db.permissions ++ [⟨db.nextPermissionId, action, module_id⟩],
      nextPermissionId := db.nextPermissionId + 1 }

/-- `POST /modules`: reject a duplicate name, else insert the module row and
then one permission row per canonical action for the fresh module id, in
array order, mirroring the prepared-statement loop.  Returns the new id. -/
def createModule (db : DB) (name : String) (description : Option String) :
    Except ApiError (DB × Nat) :=
  if db.modules.any (fun m => m.name == name) then
    .error (.conflict "Module name already exists")
  else
    let mid := db.nextModuleId
    let step := fun (acc : List PermissionRow × Nat) (a : String) =>
      (acc.1 ++ [⟨acc.2, a, mid⟩], acc.2 + 1)
    let inserted := defaultActions.foldl step ([], db.nextPermissionId)
    .ok ({ db with
      modules := db.modules ++ [⟨mid, name, description⟩],
      permissions := db.permissions ++ inserted.1,
      nextModuleId := mid + 1,
      nextPermissionId := inserted.2 }, mid)

/-- `DELETE /users/:id` as seen by the handler after the auth middleware:
`callerId` is the id in the verified JWT, `targetId` the path parameter.
Existence is checked first, then self-deletion, then the row is deleted and
the `ON DELETE CASCADE` of `user_groups.user_id` removes the membership
rows. -/
def deleteUser (db : DB) (callerId targetId : Nat) : Except ApiError DB :=
  if db.users.any (fun u => u.id == targetId) then
    if targetId == callerId then
      .error .selfDeletion
    else
      .ok { db with
        users := db.users.filter (fun u => u.id != targetId),
        user_groups := db.user_groups.filter (fun q => q.1 != targetId) }
  else .error (.notFound "User not found")

/-- `DELETE /groups/:id`: cascade removes the group's membership and role
links. -/
def deleteGroup (db : DB) (groupId : Nat) : Except ApiError DB :=
  if db.groups.any (fun g => g.id == groupId) then
    .ok { db with
      groups := db.groups.filter (fun g => g.id != groupId),
      user_groups := db.user_groups.filter (fun q => q.2 != groupId),
      group_roles := db.group_roles.filter (fun q => q.1 != groupId) }
  else .error (.notFound "Group not found")

/-- `DELETE /roles/:id`: cascade removes the role's group links and
permission links. -/
def deleteRole (db : DB) (roleId : Nat) : Except ApiError DB :=
  if db.roles.any (fun r => r.id == roleId) then
    .ok { db with
      roles := db.roles.filter (fun r => r.id != roleId),
      group_roles := db.group_roles.filter (fun q => q.2 != roleId),
      role_permissions := db.role_permissions.filter (fun q => q.1 != roleId) }
  else .error (.notFound "Role not found")

/-- `DELETE /permissions/:id`: cascade removes the permission's role links. -/
def deletePermission (db : DB) (permissionId : Nat) : Except ApiError DB :=
  if db.permissions.any (fun p => p.id == permissionId) then
    .ok { db with
      permissions := db.permissions.filter (fun p => p.id != permissionId),
      role_permissions := db.role_permissions.filter (fun q => q.2 != permissionId) }
  else .error (.notFound "Permission not found")

/-- `DELETE /modules/:id`: the cascade on `permissions.module_id` deletes the
module's permissions, whose own cascade on `role_permissions.permission_id`
deletes their role links. -/
def deleteModule (db : DB) (moduleId : Nat) : Except ApiError DB :=
  if db.modules.any (fun m => m.id == moduleId) then
    let deadPermIds := (db.permissions.filter (fun p => p.module_id == moduleId)).map
      (fun p => p.id)
    .ok { db with
      modules := db.modules.filter (fun m => m.id != moduleId),
      permissions := db.permissions.filter (fun p => p.module_id != moduleId),
      role_permissions := db.role_permissions.filter
        (fun q => decide (q.2 ∉ deadPermIds)) }
  else .error (.notFound "Module not found")

/-- The prepared-statement loop inserting association pairs one by one; a
pair already present violates the table's two-column `UNIQUE` constraint and
makes the statement fail. -/
def insertPairs (table : List (Nat × Nat)) (ps : List (Nat × Nat)) :
    Except ApiError (List (Nat × Nat)) :=
  match ps with
  | [] => .ok table
  | p :: rest =>
    if p ∈ table then .error ApiError.uniqueViolation
    else insertPairs (table ++ [p]) rest

/-- The bulk-link pattern shared verbatim by `POST /groups/:id/users`,
`POST /groups/:id/roles` and `POST /roles/:id/permissions`: owner existence
check, `SELECT id FROM t WHERE id IN (ids)` compared by length against the
raw request array, `DELETE` of the given pairs, then the insert loop.
`toPair` orients a counterpart id into the association row. -/
def bulkLink (ownerOk : Bool) (existingIds ids : List Nat)
    (table : List (Nat × Nat)) (toPair : Nat → Nat × Nat)
    (ownerErr counterErr : ApiError) : Except ApiError (List (Nat × Nat)) :=
  if ownerOk then
    if (existingIds.filter (fun r => decide (r ∈ ids))).length = ids.length then
      insertPairs (table.filter (fun q => decide (q ∉ ids.map toPair))) (ids.map toPair)
    else .error counterErr
  else .error ownerErr

/-- The bulk-unlink pattern shared by the three `DELETE …/:id/…` association
routes: owner existence check, then one `DELETE` of the given pairs,
answering with `this.changes` (the number of rows the `WHERE` matched). -/
def bulkUnlink (ownerOk : Bool) (ids : List Nat) (table : List (Nat × Nat))
    (toPair : Nat → Nat × Nat) (ownerErr : ApiError) :
    Except ApiError (List (Nat × Nat) × Nat) :=
  if ownerOk then
    .ok (table.filter (fun q => decide (q ∉ ids.map toPair)),
      (table.filter (fun q => decide (q ∈ ids.map toPair))).length)
  else .error ownerErr

/-- `POST /groups/:id/users`. -/
def assignUsersToGroup (db : DB) (groupId : Nat) (userIds : List Nat) :
    Except ApiError DB :=
  (bulkLink (db.groups.any (fun g => g.id == groupId))
      (db.users.map (fun u => u.id)) userIds db.user_groups
      (fun u => (u, groupId))
      (.notFound "Group not found") (.notFound "One or more users not found")).map
    fun t => { db with user_groups := t }

/-- `POST /groups/:id/roles`. -/
def assignRolesToGroup (db : DB) (groupId : Nat) (roleIds : List Nat) :
    Except ApiError DB :=
  (bulkLink (db.groups.any (fun g => g.id == groupId))
      (db.roles.map (fun r => r.id)) roleIds db.group_roles
      (fun r => (groupId, r))
      (.notFound "Group not found") (.notFound "One or more roles not found")).map
    fun t => { db with group_roles := t }

/-- `POST /roles/:id/permissions`. -/
def assignPermissionsToRole (db : DB) (roleId : Nat) (permissionIds : List Nat) :
    Except ApiError DB :=
  (bulkLink (db.roles.any (fun r => r.id == roleId))
      (db.permissions.map (fun p => p.id)) permissionIds db.role_permissions
      (fun p => (roleId, p))
      (.notFound "Role not found") (.notFound "One or more permissions not found")).map
    fun t => { db with role_permissions := t }

/-- `DELETE /groups/:id/users`. -/
def removeUsersFromGroup (db : DB) (groupId : Nat) (userIds : List Nat) :
    Except ApiError (DB × Nat) :=
  (bulkUnlink (db.groups.any (fun g => g.id == groupId)) userIds db.user_groups
      (fun u => (u, groupId)) (.notFound "Group not found")).map
    fun r => ({ db with user_groups := r.1 }, r.2)

/-- The store right after `initializeDatabase` created the eight empty
tables. -/
def emptyDB : DB :=
  { users := [], groups := [], roles := [], modules := [], permissions := [],
    user_groups := [], group_roles := [], role_permissions := [],
    nextUserId := 1, nextGroupId := 1, nextRoleId := 1, nextModuleId := 1,
    nextPermissionId := 1 }

/-- The five modules `seedDatabase` inserts first, with their descriptions. -/
def seedModules : List (String × String) :=
  [("Users", "User management module"),
   ("Groups", "Group management module"),
   ("Roles", "Role management module"),
   ("Modules", "Module management"),
   ("Permissions", "Permission management")]

/-- The store produced by `seedDatabase` running against the empty store,
following its callback sequence step by step: insert the five modules; for
every row of `SELECT id FROM modules` insert the four permissions; insert the
`Admin` role and link it to every row of `SELECT id FROM permissions`; insert
the `Administrators` group and give it the role; insert the `admin` user and
put it in the group. -/
def seedDatabase : DB :=
  let db1 : DB := seedModules.foldl
    (fun (d : DB) (nm : String × String) => { d with
      modules := d.modules ++ [⟨d.nextModuleId, nm.1, some nm.2⟩],
      nextModuleId := d.nextModuleId + 1 }) emptyDB
  let db2 : DB := (db1.modules.map (fun m => m.id)).foldl
    (fun (d : DB) (mid : Nat) => defaultActions.foldl
      (fun (d : DB) (a : String) => { d with
        permissions := d.permissions ++ [⟨d.nextPermissionId, a, mid⟩],
        nextPermissionId := d.nextPermissionId + 1 }) d) db1
  let adminRoleId := db2.nextRoleId
  let db3 : DB := { db2 with
    roles := db2.roles ++ [⟨adminRoleId, "Admin", some "Full system administrator"⟩],
    nextRoleId := adminRoleId + 1 }
  let db4 : DB := { db3 with
    role_permissions := db3.role_permissions ++
      db3.permissions.map (fun p => (adminRoleId, p.id)) }
  let adminGroupId := db4.nextGroupId
  let db5 : DB := { db4 with
    groups := db4.groups ++
      [⟨adminGroupId, "Administrators", some "System administrators group"⟩],
    nextGroupId := adminGroupId + 1 }
  let db6 : DB := { db5 with
    group_roles := db5.group_roles ++ [(adminGroupId, adminRoleId)] }
  let adminUserId := db6.nextUserId
  let db7 : DB := { db6 with
    users := db6.users ++ [⟨adminUserId, "admin", "joydaven@gmail.com"⟩],
    nextUserId := adminUserId + 1 }
  { db7 with user_groups := db7.user_groups ++ [(adminUserId, adminGroupId)] }

theorem filter_mem_length_eq (rows ids : List Nat) (hrows : rows.Nodup)
    (hsub : ∀ i ∈ ids, i ∈ rows) :
    (rows.filter (fun r => decide (r ∈ ids))).length = ids.dedup.length := by
  have hnd : (rows.filter (fun r => decide (r ∈ ids))).Nodup := hrows.filter _
  have hset : (rows.filter (fun r => decide (r ∈ ids))).toFinset = ids.toFinset := by
    ext x
    simp only [List.mem_toFinset, List.mem_filter, decide_eq_true_eq]
    exact ⟨fun h => h.2, fun h => ⟨hsub x h, h⟩⟩
  calc (rows.filter (fun r => decide (r ∈ ids))).length
      = (rows.filter (fun r => decide (r ∈ ids))).dedup.length := by rw [hnd.dedup]
    _ = (rows.filter (fun r => decide (r ∈ ids))).toFinset.card :=
        (List.card_toFinset _).symm
    _ = ids.toFinset.card := by rw [hset]
    _ = ids.dedup.length := List.card_toFinset ids

theorem filter_mem_length_lt_of_missing (rows ids : List Nat) (i0 : Nat)
    (hrows : rows.Nodup) (hi0 : i0 ∈ ids) (hmiss : i0 ∉ rows) :
    (rows.filter (fun r => decide (r ∈ ids))).length < ids.length := by
  have hnd : (rows.filter (fun r => decide (r ∈ ids))).Nodup := hrows.filter _
  have hsubset : (rows.filter (fun r => decide (r ∈ ids))).toFinset ⊆
      ids.toFinset.erase i0 := by
    intro x hx
    simp only [List.mem_toFinset, List.mem_filter, decide_eq_true_eq] at hx
    refine Finset.mem_erase.mpr ⟨?_, List.mem_toFinset.mpr hx.2⟩
    rintro rfl
    exact hmiss hx.1
  calc (rows.filter (fun r => decide (r ∈ ids))).length
      = (rows.filter (fun r => decide (r ∈ ids))).toFinset.card := by
        rw [List.card_toFinset, hnd.dedup]
    _ ≤ (ids.toFinset.erase i0).card := Finset.card_le_card hsubset
    _ < ids.toFinset.card := Finset.card_erase_lt_of_mem (List.mem_toFinset.mpr hi0)
    _ = ids.dedup.length := List.card_toFinset ids
    _ ≤ ids.length := (List.dedup_sublist ids).length_le

theorem dedup_length_lt_of_not_nodup (ids : List Nat) (h : ¬ ids.Nodup) :
    ids.dedup.length < ids.length := by
  rcases Nat.lt_or_ge ids.dedup.length ids.length with hlt | hge
  · exact hlt
  · exfalso
    have heq : ids.dedup.length = ids.length :=
      le_antisymm (List.dedup_sublist ids).length_le hge
    exact h ((List.dedup_sublist ids).eq_of_length heq ▸ ids.nodup_dedup)

theorem insertPairs_ok (ps : List (Nat × Nat)) (hnd : ps.Nodup) :
    ∀ table : List (Nat × Nat), (∀ p ∈ ps, p ∉ table) →
      insertPairs table ps = .ok (table ++ ps) := by
  induction ps with
  | nil => intro table _; simp [insertPairs]
  | cons p rest ih =>
    intro table hdisj
    have hp : p ∉ table := hdisj p (List.mem_cons_self ..)
    rw [insertPairs, if_neg hp,
      ih (List.nodup_cons.mp hnd).2 (table ++ [p]) ?_]
    · simp
    · intro q hq
      simp only [List.mem_append, List.mem_singleton]
      rintro (h1 | rfl)
      · exact hdisj q (List.mem_cons_of_mem _ hq) h1
      · exact (List.nodup_cons.mp hnd).1 hq

theorem bulkLink_owner_missing (existingIds ids : List Nat)
    (table : List (Nat × Nat)) (toPair : Nat → Nat × Nat) (e1 e2 : ApiError) :
    bulkLink false existingIds ids table toPair e1 e2 = .error e1 := rfl

theorem bulkLink_counterpart_missing (existingIds ids : List Nat)
    (table : List (Nat × Nat)) (toPair : Nat → Nat × Nat) (e1 e2 : ApiError)
    (hex : existingIds.Nodup) (i0 : Nat) (hi0 : i0 ∈ ids)
    (hmiss : i0 ∉ existingIds) :
    bulkLink true existingIds ids table toPair e1 e2 = .error e2 := by
  have hlt := filter_mem_length_lt_of_missing existingIds ids i0 hex hi0 hmiss
  rw [bulkLink, if_pos rfl, if_neg (Nat.ne_of_lt hlt)]

theorem bulkLink_duplicate (existingIds ids : List Nat)
    (table : List (Nat × Nat)) (toPair : Nat → Nat × Nat) (e1 e2 : ApiError)
    (hex : existingIds.Nodup) (hsub : ∀ i ∈ ids, i ∈ existingIds)
    (hdup : ¬ ids.Nodup) :
    bulkLink true existingIds ids table toPair e1 e2 = .error e2 := by
  have hlt : (existingIds.filter (fun r => decide (r ∈ ids))).length < ids.length := by
    rw [filter_mem_length_eq existingIds ids hex hsub]
    exact dedup_length_lt_of_not_nodup ids hdup
  rw [bulkLink, if_pos rfl, if_neg (Nat.ne_of_lt hlt)]

theorem bulkLink_ok (existingIds ids : List Nat) (table : List (Nat × Nat))
    (toPair : Nat → Nat × Nat) (e1 e2 : ApiError)
    (hex : existingIds.Nodup) (hid : ids.Nodup)
    (hsub : ∀ i ∈ ids, i ∈ existingIds) (hinj : Function.Injective toPair) :
    bulkLink true existingIds ids table toPair e1 e2 =
      .ok ((table.filter (fun q => decide (q ∉ ids.map toPair))) ++ ids.map toPair) := by
  rw [bulkLink, if_pos rfl,
    if_pos (by rw [filter_mem_length_eq existingIds ids hex hsub, hid.dedup])]
  apply insertPairs_ok _ (hid.map hinj)
  intro p hp hmem
  have := (List.mem_filter.mp hmem).2
  rw [decide_eq_true_eq] at this
  exact this hp

theorem assignUsersToGroup_ok (db : DB) (gid : Nat) (S : List Nat)
    (hany : db.groups.any (fun g => g.id == gid) = true)
    (husers : (db.users.map (fun u => u.id)).Nodup) (hS : S.Nodup)
    (hsub : ∀ i ∈ S, i ∈ db.users.map (fun u => u.id)) :
    assignUsersToGroup db gid S =
      .ok { db with
        user_groups :=
          (db.user_groups.filter
              (fun q => decide (q ∉ S.map (fun u => (u, gid))))) ++
            S.map (fun u => (u, gid)) } := by
  unfold assignUsersToGroup
  rw [hany, bulkLink_ok _ _ _ _ _ _ husers hS hsub (fun a b h => by simpa using h)]
  rfl

/-- C4: for each of the three link operations, a missing owner or any one
missing counterpart id makes the whole request fail with a not-found error;
the handlers run these existence checks before the `DELETE`/`INSERT` pair,
so on the error path no association row has been inserted or removed (in the
model an `error` result leaves the store untouched by construction). -/
theorem link_missing_entity_not_found (db : DB) (ownerId : Nat) (ids : List Nat) :
    (((¬ ∃ g ∈ db.groups, g.id = ownerId) ∨ (∃ i ∈ ids, ∀ u ∈ db.users, u.id ≠ i)) →
      (db.users.map (fun u => u.id)).Nodup →
      ∃ msg, assignUsersToGroup db ownerId ids = .error (.notFound msg)) ∧
    (((¬ ∃ g ∈ db.groups, g.id = ownerId) ∨ (∃ i ∈ ids, ∀ r ∈ db.roles, r.id ≠ i)) →
      (db.roles.map (fun r => r.id)).Nodup →
      ∃ msg, assignRolesToGroup db ownerId ids = .error (.notFound msg)) ∧
    (((¬ ∃ r ∈ db.roles, r.id = ownerId) ∨ (∃ i ∈ ids, ∀ p ∈ db.permissions, p.id ≠ i)) →
      (db.permissions.map (fun p => p.id)).Nodup →
      ∃ msg, assignPermissionsToRole db ownerId ids = .error (.notFound msg)) := by
  refine ⟨?_, ?_, ?_⟩
  · intro hcase hnodup
    by_cases howner : db.groups.any (fun g => g.id == ownerId) = true
    · rcases hcase with hmiss | ⟨i0, hi0, hnot⟩
      · exfalso
        obtain ⟨g, hg, hgid⟩ := List.any_eq_true.mp howner
        exact hmiss ⟨g, hg, by simpa using hgid⟩
      · refine ⟨"One or more users not found", ?_⟩
        unfold assignUsersToGroup
        rw [howner, bulkLink_counterpart_missing _ _ _ _ _ _ hnodup i0 hi0 ?_]
        · rfl
        · intro hmem
          obtain ⟨u, hu, hui⟩ := List.mem_map.mp hmem
          exact hnot u hu hui
    · rw [Bool.not_eq_true] at howner
      refine ⟨"Group not found", ?_⟩
      unfold assignUsersToGroup
      rw [howner, bulkLink_owner_missing]
      rfl
  · intro hcase hnodup
    by_cases howner : db.groups.any (fun g => g.id == ownerId) = true
    · rcases hcase with hmiss | ⟨i0, hi0, hnot⟩
      · exfalso
        obtain ⟨g, hg, hgid⟩ := List.any_eq_true.mp howner
        exact hmiss ⟨g, hg, by simpa using hgid⟩
      · refine ⟨"One or more roles not found", ?_⟩
        unfold assignRolesToGroup
        rw [howner, bulkLink_counterpart_missing _ _ _ _ _ _ hnodup i0 hi0 ?_]
        · rfl
        · intro hmem
          obtain ⟨r, hr, hri⟩ := List.mem_map.mp hmem
          exact hnot r hr hri
    · rw [Bool.not_eq_true] at howner
      refine ⟨"Group not found", ?_⟩
      unfold assignRolesToGroup
      rw [howner, bulkLink_owner_missing]
      rfl
  · intro hcase hnodup
    by_cases howner : db.roles.any (fun r => r.id == ownerId) = true
    · rcases hcase with hmiss | ⟨i0, hi0, hnot⟩
      · exfalso
        obtain ⟨r, hr, hrid⟩ := List.any_eq_true.mp howner
        exact hmiss ⟨r, hr, by simpa using hrid⟩
      · refine ⟨"One or more permissions not found", ?_⟩
        unfold assignPermissionsToRole
        rw [howner, bulkLink_counterpart_missing _ _ _ _ _ _ hnodup i0 hi0 ?_]
        · rfl
        · intro hmem
          obtain ⟨p, hp, hpi⟩ := List.mem_map.mp hmem
          exact hnot p hp hpi
    · rw [Bool.not_eq_true] at howner
      refine ⟨"Role not found", ?_⟩
      unfold assignPermissionsToRole
      rw [howner, bulkLink_owner_missing]
      rfl

/-- C5: linking an existing set of users to an existing group twice leaves
the group's membership exactly as after doing it once — the handler clears
the given pairs before re-inserting them, so the second call succeeds (no
duplicate-key failure) and returns the very same store. -/
theorem link_idempotent (db : DB) (gid : Nat) (S : List Nat)
    (howner : ∃ g ∈ db.groups, g.id = gid)
    (husers : (db.users.map (fun u => u.id)).Nodup)
    (hS : S.Nodup)
    (hex : ∀ i ∈ S, ∃ u ∈ db.users, u.id = i) :
    ∃ db1 : DB, assignUsersToGroup db gid S = .ok db1 ∧
      assignUsersToGroup db1 gid S = .ok db1 := by
  have hany : db.groups.any (fun g => g.id == gid) = true := by
    obtain ⟨g, hg, hgid⟩ := howner
    exact List.any_eq_true.mpr ⟨g, hg, by simp [hgid]⟩
  have hsub : ∀ i ∈ S, i ∈ db.users.map (fun u => u.id) := by
    intro i hi
    obtain ⟨u, hu, hui⟩ := hex i hi
    exact List.mem_map.mpr ⟨u, hu, hui⟩
  set pairs := S.map (fun u : Nat => (u, gid)) with hpairs
  set db1 : DB := { db with user_groups :=
    (db.user_groups.filter (fun q => decide (q ∉ pairs))) ++ pairs } with hdb1
  have h1 := assignUsersToGroup_ok db gid S hany husers hS hsub
  have h2 := assignUsersToGroup_ok db1 gid S hany husers hS hsub
  have hclean : db1.user_groups.filter (fun q => decide (q ∉ pairs)) =
      db.user_groups.filter (fun q => decide (q ∉ pairs)) := by
    show ((db.user_groups.filter (fun q => decide (q ∉ pairs))) ++ pairs).filter
        (fun q => decide (q ∉ pairs)) = _
    rw [List.filter_append, List.filter_filter]
    have hnil : pairs.filter (fun q => decide (q ∉ pairs)) = [] := by
      rw [List.filter_eq_nil_iff]
      intro a ha
      simp [ha]
    rw [hnil, List.append_nil]
    simp [Bool.and_self]
  refine ⟨db1, h1, ?_⟩
  rw [h2, hclean]

/-- C10: a duplicated (but existing) counterpart id in a link request is
rejected exactly like a nonexistent id: the `SELECT … WHERE id IN (…)` row
count is compared against the raw length of the request array, so duplicates
trip the same not-found error and nothing is written. -/
theorem link_duplicate_id_rejected (db : DB) (ownerId : Nat) (ids : List Nat)
    (hdup : ¬ ids.Nodup) :
    ((∃ g ∈ db.groups, g.id = ownerId) → (db.users.map (fun u => u.id)).Nodup →
      (∀ i ∈ ids, ∃ u ∈ db.users, u.id = i) →
      assignUsersToGroup db ownerId ids =
        .error (.notFound "One or more users not found")) ∧
    ((∃ g ∈ db.groups, g.id = ownerId) → (db.roles.map (fun r => r.id)).Nodup →
      (∀ i ∈ ids, ∃ r ∈ db.roles, r.id = i) →
      assignRolesToGroup db ownerId ids =
        .error (.notFound "One or more roles not found")) ∧
    ((∃ r ∈ db.roles, r.id = ownerId) → (db.permissions.map (fun p => p.id)).Nodup →
      (∀ i ∈ ids, ∃ p ∈ db.permissions, p.id = i) →
      assignPermissionsToRole db ownerId ids =
        .error (.notFound "One or more permissions not found")) := by
  refine ⟨?_, ?_, ?_⟩
  · intro howner hnodup hexist
    have hany : db.groups.any (fun g => g.id == ownerId) = true := by
      obtain ⟨g, hg, hgid⟩ := howner
      exact List.any_eq_true.mpr ⟨g, hg, by simp [hgid]⟩
    have hsub : ∀ i ∈ ids, i ∈ db.users.map (fun u => u.id) := by
      intro i hi
      obtain ⟨u, hu, hui⟩ := hexist i hi
      exact List.mem_map.mpr ⟨u, hu, hui⟩
    unfold assignUsersToGroup
    rw [hany, bulkLink_duplicate _ _ _ _ _ _ hnodup hsub hdup]
    rfl
  · intro howner hnodup hexist
    have hany : db.groups.any (fun g => g.id == ownerId) = true := by
      obtain ⟨g, hg, hgid⟩ := howner
      exact List.any_eq_true.mpr ⟨g, hg, by simp [hgid]⟩
    have hsub : ∀ i ∈ ids, i ∈ db.roles.map (fun r => r.id) := by
      intro i hi
      obtain ⟨r, hr, hri⟩ := hexist i hi
      exact List.mem_map.mpr ⟨r, hr, hri⟩
    unfold assignRolesToGroup
    rw [hany, bulkLink_duplicate _ _ _ _ _ _ hnodup hsub hdup]
    rfl
  · intro howner hnodup hexist
    have hany : db.roles.any (fun r => r.id == ownerId) = true := by
      obtain ⟨r, hr, hrid⟩ := howner
      exact List.any_eq_true.mpr ⟨r, hr, by simp [hrid]⟩
    have hsub : ∀ i ∈ ids, i ∈ db.permissions.map (fun p => p.id) := by
      intro i hi
      obtain ⟨p, hp, hpi⟩ := hexist i hi
      exact List.mem_map.mpr ⟨p, hp, hpi⟩
    unfold assignPermissionsToRole
    rw [hany, bulkLink_duplicate _ _ _ _ _ _ hnodup hsub hdup]
    rfl

/-- C6: `DELETE /groups/:id/users` on an existing group removes exactly the
present pairs `(u, g)` with `u ∈ S`, succeeds even when some or all pairs
are absent, and reports the number of rows actually removed — zero when no
given pair was a member; removing a non-member is never an error. -/
theorem unlink_set_difference (db : DB) (gid : Nat) (S : List Nat)
    (howner : ∃ g ∈ db.groups, g.id = gid) :
    ∃ (db' : DB) (n : Nat),
      removeUsersFromGroup db gid S = .ok (db', n) ∧
      (∀ q : Nat × Nat, q ∈ db'.user_groups ↔
        q ∈ db.user_groups ∧ ¬(q.1 ∈ S ∧ q.2 = gid)) ∧
      n = (db.user_groups.filter
        (fun q => decide (q ∈ S.map (fun u => (u, gid))))).length ∧
      ((∀ u ∈ S, (u, gid) ∉ db.user_groups) →
        n = 0 ∧ db'.user_groups = db.user_groups) := by
  have hany : db.groups.any (fun g => g.id == gid) = true := by
    obtain ⟨g, hg, hgid⟩ := howner
    exact List.any_eq_true.mpr ⟨g, hg, by simp [hgid]⟩
  have hpair : ∀ q : Nat × Nat,
      q ∈ S.map (fun u => (u, gid)) ↔ q.1 ∈ S ∧ q.2 = gid := by
    intro q
    constructor
    · intro h
      obtain ⟨u, hu, rfl⟩ := List.mem_map.mp h
      exact ⟨hu, rfl⟩
    · rintro ⟨h1, h2⟩
      exact List.mem_map.mpr ⟨q.1, h1, by rw [← h2, Prod.mk.eta]⟩
  refine ⟨{ db with
      user_groups := db.user_groups.filter
        (fun q => decide (q ∉ S.map (fun u => (u, gid)))) },
    (db.user_groups.filter
      (fun q => decide (q ∈ S.map (fun u => (u, gid))))).length,
    ?_, ?_, rfl, ?_⟩
  · unfold removeUsersFromGroup bulkUnlink
    rw [hany]
    rfl
  · intro q
    simp only [List.mem_filter, decide_eq_true_eq, hpair q]
  · intro habs
    constructor
    · have hnil : db.user_groups.filter
          (fun q => decide (q ∈ S.map (fun u => (u, gid)))) = [] := by
        rw [List.filter_eq_nil_iff]
        intro a ha
        simp only [decide_eq_true_eq]
        intro hmem
        obtain ⟨u, hu, rfl⟩ := List.mem_map.mp hmem
        exact habs u hu ha
      rw [hnil]
      rfl
    · show db.user_groups.filter _ = db.user_groups
      rw [List.filter_eq_self]
      intro a ha
      simp only [decide_eq_true_eq]
      intro hmem
      obtain ⟨u, hu, rfl⟩ := List.mem_map.mp hmem
      exact habs u hu ha

/-- C8: `DELETE /users/:id` on an existing target is rejected with the
self-deletion error whenever the target is the caller (the handler checks
this after existence and before the `DELETE`, so the row survives and the
check does not consult permissions at all), and succeeds — removing the row
and its memberships — whenever the target differs from the caller. -/
theorem deleteUser_self_rejected (db : DB) (callerId targetId : Nat)
    (hexist : ∃ u ∈ db.users, u.id = targetId) :
    (targetId = callerId →
      deleteUser db callerId targetId = .error .selfDeletion) ∧
    (targetId ≠ callerId →
      deleteUser db callerId targetId = .ok { db with
        users := db.users.filter (fun u => u.id != targetId),
        user_groups := db.user_groups.filter (fun q => q.1 != targetId) }) := by
  have hany : db.users.any (fun u => u.id == targetId) = true := by
    obtain ⟨u, hu, hui⟩ := hexist
    exact List.any_eq_true.mpr ⟨u, hu, by simp [hui]⟩
  constructor
  · intro heq
    subst heq
    simp [deleteUser, hany]
  · intro hne
    simp [deleteUser, hany, hne]

/-- C7: a successful `POST /modules` leaves exactly four permission rows
scoped to the fresh module id, one per canonical action; and every other
entity-creation handler (`POST /users`, `POST /groups`, `POST /roles`,
`POST /permissions`) inserts only the one row of the created entity,
leaving every other table untouched. -/
theorem createModule_side_effects (db : DB) :
    ((∀ p ∈ db.permissions, p.module_id ≠ db.nextModuleId) →
      ∀ (nm : String) (d : Option String), (¬ ∃ m ∈ db.modules, m.name = nm) →
      ∃ db' : DB, createModule db nm d = .ok (db', db.nextModuleId) ∧
        (db'.permissions.filter (fun p => p.module_id == db.nextModuleId)).map
            (fun p => p.action) = defaultActions ∧
        (db'.permissions.filter (fun p => p.module_id == db.nextModuleId)).length = 4) ∧
    (∀ (u e : String) (db' : DB), createUser db u e = .ok db' →
      db'.users = db.users ++ [⟨db.nextUserId, u, e⟩] ∧
      db'.groups = db.groups ∧ db'.roles = db.roles ∧ db'.modules = db.modules ∧
      db'.permissions = db.permissions ∧ db'.user_groups = db.user_groups ∧
      db'.group_roles = db.group_roles ∧ db'.role_permissions = db.role_permissions) ∧
    (∀ (nm : String) (d : Option String) (db' : DB), createGroup db nm d = .ok db' →
      db'.groups = db.groups ++ [⟨db.nextGroupId, nm, d⟩] ∧
      db'.users = db.users ∧ db'.roles = db.roles ∧ db'.modules = db.modules ∧
      db'.permissions = db.permissions ∧ db'.user_groups = db.user_groups ∧
      db'.group_roles = db.group_roles ∧ db'.role_permissions = db.role_permissions) ∧
    (∀ (nm : String) (d : Option String) (db' : DB), createRole db nm d = .ok db' →
      db'.roles = db.roles ++ [⟨db.nextRoleId, nm, d⟩] ∧
      db'.users = db.users ∧ db'.groups = db.groups ∧ db'.modules = db.modules ∧
      db'.permissions = db.permissions ∧ db'.user_groups = db.user_groups ∧
      db'.group_roles = db.group_roles ∧ db'.role_permissions = db.role_permissions) ∧
    (∀ (a : String) (mid : Nat) (db' : DB), createPermission db a mid = .ok db' →
      db'.permissions = db.permissions ++ [⟨db.nextPermissionId, a, mid⟩] ∧
      db'.users = db.users ∧ db'.groups = db.groups ∧ db'.roles = db.roles ∧
      db'.modules = db.modules ∧ db'.user_groups = db.user_groups ∧
      db'.group_roles = db.group_roles ∧ db'.role_permissions = db.role_permissions) := by
  refine ⟨?_, ?_, ?_, ?_, ?_⟩
  · intro hfresh nm d hname
    have hnameb : db.modules.any (fun m => m.name == nm) = false := by
      cases hb : db.modules.any (fun m => m.name == nm) with
      | false => rfl
      | true =>
        obtain ⟨m, hm, hmn⟩ := List.any_eq_true.mp hb
        exact absurd ⟨m, hm, by simpa using hmn⟩ hname
    have hcm : createModule db nm d = .ok ({ db with
        modules := db.modules ++ [⟨db.nextModuleId, nm, d⟩],
        permissions := db.permissions ++
          [⟨db.nextPermissionId, "create", db.nextModuleId⟩,
           ⟨db.nextPermissionId + 1, "read", db.nextModuleId⟩,
           ⟨db.nextPermissionId + 1 + 1, "update", db.nextModuleId⟩,
           ⟨db.nextPermissionId + 1 + 1 + 1, "delete", db.nextModuleId⟩],
        nextModuleId := db.nextModuleId + 1,
        nextPermissionId := db.nextPermissionId + 1 + 1 + 1 + 1 }, db.nextModuleId) := by
      unfold createModule
      rw [hnameb]
      rfl
    have hold : db.permissions.filter (fun p => p.module_id == db.nextModuleId) = [] := by
      rw [List.filter_eq_nil_iff]
      intro p hp
      simpa using hfresh p hp
    refine ⟨_, hcm, ?_, ?_⟩
    · simp [List.filter_append, hold, defaultActions]
    · simp [List.filter_append, hold]
  · intro u e db' h
    rw [createUser] at h
    split at h
    · cases h
    · cases h
      exact ⟨rfl, rfl, rfl, rfl, rfl, rfl, rfl, rfl⟩
  · intro nm d db' h
    rw [createGroup] at h
    split at h
    · cases h
    · cases h
      exact ⟨rfl, rfl, rfl, rfl, rfl, rfl, rfl, rfl⟩
  · intro nm d db' h
    rw [createRole] at h
    split at h
    · cases h
    · cases h
      exact ⟨rfl, rfl, rfl, rfl, rfl, rfl, rfl, rfl⟩
  · intro a mid db' h
    rw [createPermission] at h
    split at h
    · cases h
    · split at h
      · cases h
      · cases h
        exact ⟨rfl, rfl, rfl, rfl, rfl, rfl, rfl, rfl⟩

/-- C2: every `DELETE` route cascades so that no association row (and no
permission row) references the deleted entity afterwards; in particular,
after deleting a module, its permission rows are gone and — modules having
unique names — the resolver denies every `(user, thatModuleName, action)`
triple. -/
theorem delete_cascades_no_dangling :
    (∀ (db : DB) (callerId targetId : Nat) (db' : DB),
        deleteUser db callerId targetId = .ok db' →
        (∀ q ∈ db'.user_groups, q.1 ≠ targetId) ∧
        ∀ u ∈ db'.users, u.id ≠ targetId) ∧
    (∀ (db : DB) (gid : Nat) (db' : DB), deleteGroup db gid = .ok db' →
        (∀ q ∈ db'.user_groups, q.2 ≠ gid) ∧
        (∀ q ∈ db'.group_roles, q.1 ≠ gid) ∧
        ∀ g ∈ db'.groups, g.id ≠ gid) ∧
    (∀ (db : DB) (rid : Nat) (db' : DB), deleteRole db rid = .ok db' →
        (∀ q ∈ db'.group_roles, q.2 ≠ rid) ∧
        (∀ q ∈ db'.role_permissions, q.1 ≠ rid) ∧
        ∀ r ∈ db'.roles, r.id ≠ rid) ∧
    (∀ (db : DB) (pid : Nat) (db' : DB), deletePermission db pid = .ok db' →
        (∀ q ∈ db'.role_permissions, q.2 ≠ pid) ∧
        ∀ p ∈ db'.permissions, p.id ≠ pid) ∧
    (∀ (db : DB) (mid : Nat) (m : ModuleRow) (db' : DB),
        m ∈ db.modules → m.id = mid →
        (db.modules.map (fun x => x.name)).Nodup →
        deleteModule db mid = .ok db' →
        (∀ p ∈ db'.permissions, p.module_id ≠ mid) ∧
        ∀ (u : Nat) (a : String), simulateHasPermission db' u m.name a = false) := by
  refine ⟨?_, ?_, ?_, ?_, ?_⟩
  · intro db callerId targetId db' h
    rw [deleteUser] at h
    split at h
    · split at h
      · cases h
      · cases h
        refine ⟨fun q hq => ?_, fun u hu => ?_⟩
        · simpa using (List.mem_filter.mp hq).2
        · simpa using (List.mem_filter.mp hu).2
    · cases h
  · intro db gid db' h
    rw [deleteGroup] at h
    split at h
    · cases h
      refine ⟨fun q hq => ?_, fun q hq => ?_, fun g hg => ?_⟩
      · simpa using (List.mem_filter.mp hq).2
      · simpa using (List.mem_filter.mp hq).2
      · simpa using (List.mem_filter.mp hg).2
    · cases h
  · intro db rid db' h
    rw [deleteRole] at h
    split at h
    · cases h
      refine ⟨fun q hq => ?_, fun q hq => ?_, fun r hr => ?_⟩
      · simpa using (List.mem_filter.mp hq).2
      · simpa using (List.mem_filter.mp hq).2
      · simpa using (List.mem_filter.mp hr).2
    · cases h
  · intro db pid db' h
    rw [deletePermission] at h
    split at h
    · cases h
      refine ⟨fun q hq => ?_, fun p hp => ?_⟩
      · simpa using (List.mem_filter.mp hq).2
      · simpa using (List.mem_filter.mp hp).2
    · cases h
  · intro db mid m db' hm hmid hnames h
    rw [deleteModule] at h
    split at h
    · cases h
      refine ⟨fun p hp => ?_, fun u a => ?_⟩
      · simpa using (List.mem_filter.mp hp).2
      · unfold simulateHasPermission
        apply decide_eq_false
        intro hpos
        obtain ⟨gid, rid, p, m', _, _, _, hp, hm', hmid', hpa, hmn⟩ :=
          (permissionPathCount_pos_iff _ u m.name a).mp hpos
        obtain ⟨hm'mem, hm'ne⟩ := List.mem_filter.mp hm'
        have : m' = m :=
          List.inj_on_of_nodup_map hnames hm'mem hm hmn
        rw [this] at hm'ne
        simp [hmid] at hm'ne
    · cases h

/-- C9: the fresh seed holds exactly the 5 canonical modules, 20 permissions
(the four canonical actions for each module), one role `Admin` linked to all
20 permissions, one group `Administrators` holding that role, and one user
`admin` in that group; consequently the admin's permission map pairs each of
the 5 module names with all 4 actions. -/
theorem seedDatabase_bootstrap :
    seedDatabase.modules.map ModuleRow.name =
        ["Users", "Groups", "Roles", "Modules", "Permissions"] ∧
      seedDatabase.permissions.length = 20 ∧
      (∀ m ∈ seedDatabase.modules,
        (seedDatabase.permissions.filter (fun p => p.module_id == m.id)).map
          PermissionRow.action = defaultActions) ∧
      seedDatabase.roles.map RoleRow.name = ["Admin"] ∧
      seedDatabase.role_permissions =
        seedDatabase.permissions.map (fun p => (1, p.id)) ∧
      seedDatabase.role_permissions.length = 20 ∧
      seedDatabase.groups.map GroupRow.name = ["Administrators"] ∧
      seedDatabase.group_roles = [(1, 1)] ∧
      seedDatabase.users.map UserRow.username = ["admin"] ∧
      seedDatabase.user_groups = [(1, 1)] ∧
      (∀ m ∈ seedDatabase.modules, ∀ a ∈ defaultActions,
        (m.name, a) ∈ userPermissionPairs seedDatabase 1) := by
  decide

/-- A small concrete store used to instantiate the theorems above: three
users, two groups, two roles, two modules (each with some permissions), and
a few association rows. -/
def exDB : DB :=
  { users := [⟨1, "admin", "admin@example.com"⟩, ⟨2, "bob", "bob@example.com"⟩,
      ⟨3, "carol", "carol@example.com"⟩],
    groups := [⟨1, "G1", none⟩, ⟨2, "G2", none⟩],
    roles := [⟨1, "R1", none⟩, ⟨2, "R2", none⟩],
    modules := [⟨1, "M1", none⟩, ⟨2, "M2", none⟩],
    permissions := [⟨1, "read", 1⟩, ⟨2, "read", 2⟩, ⟨3, "create", 1⟩],
    user_groups := [(1, 1), (2, 1), (2, 2), (3, 2)],
    group_roles := [(1, 1), (2, 2), (1, 2)],
    role_permissions := [(1, 1), (2, 2), (1, 3)],
    nextUserId := 4, nextGroupId := 3, nextRoleId := 3, nextModuleId := 3,
    nextPermissionId := 4 }

/-- `exDB` after `DELETE /users/2`. -/
def exDBuserDel : DB :=
  { exDB with
    users := [⟨1, "admin", "admin@example.com"⟩, ⟨3, "carol", "carol@example.com"⟩],
    user_groups := [(1, 1), (3, 2)] }

/-- `exDB` after `DELETE /groups/1`. -/
def exDBgroupDel : DB :=
  { exDB with
    groups := [⟨2, "G2", none⟩],
    user_groups := [(2, 2), (3, 2)],
    group_roles := [(2, 2)] }

/-- `exDB` after `DELETE /roles/1`. -/
def exDBroleDel : DB :=
  { exDB with
    roles := [⟨2, "R2", none⟩],
    group_roles := [(2, 2), (1, 2)],
    role_permissions := [(2, 2)] }

/-- `exDB` after `DELETE /permissions/1`. -/
def exDBpermDel : DB :=
  { exDB with
    permissions := [⟨2, "read", 2⟩, ⟨3, "create", 1⟩],
    role_permissions := [(2, 2), (1, 3)] }

/-- `exDB` after `DELETE /modules/1`. -/
def exDBmoduleDel : DB :=
  { exDB with
    modules := [⟨2, "M2", none⟩],
    permissions := [⟨2, "read", 2⟩],
    role_permissions := [(2, 2)] }

theorem delete_cascades_no_dangling_witness :
    (((1, 1) : Nat × Nat).1 ≠ 2) ∧
    (((2, 2) : Nat × Nat).2 ≠ 1) ∧
    (((1, 2) : Nat × Nat).2 ≠ 1) ∧
    (((1, 3) : Nat × Nat).2 ≠ 1) ∧
    ((⟨2, "read", 2⟩ : PermissionRow).module_id ≠ 1) ∧
    simulateHasPermission exDBmoduleDel 9 "M1" "read" = false :=
  ⟨(delete_cascades_no_dangling.1 exDB 1 2 exDBuserDel rfl).1 (1, 1) (by decide),
   (delete_cascades_no_dangling.2.1 exDB 1 exDBgroupDel rfl).1 (2, 2) (by decide),
   (delete_cascades_no_dangling.2.2.1 exDB 1 exDBroleDel rfl).1 (1, 2) (by decide),
   (delete_cascades_no_dangling.2.2.2.1 exDB 1 exDBpermDel rfl).1 (1, 3) (by decide),
   (delete_cascades_no_dangling.2.2.2.2 exDB 1 ⟨1, "M1", none⟩ exDBmoduleDel
      (by decide) (by decide) (by decide) rfl).1 ⟨2, "read", 2⟩ (by decide),
   (delete_cascades_no_dangling.2.2.2.2 exDB 1 ⟨1, "M1", none⟩ exDBmoduleDel
      (by decide) (by decide) (by decide) rfl).2 9 "read"⟩

theorem getUserPermissions_is_union_witness :
    userPermissionPairs exDB 99 = [] :=
  (getUserPermissions_is_union exDB 99).2 (by
    intro gid h
    rw [show exDB.user_groups = [(1, 1), (2, 1), (2, 2), (3, 2)] from rfl] at h
    simp at h)

theorem link_missing_entity_not_found_witness :
    (∃ msg, assignUsersToGroup exDB 99 [1] = .error (.notFound msg)) ∧
    (∃ msg, assignUsersToGroup exDB 1 [7] = .error (.notFound msg)) :=
  ⟨(link_missing_entity_not_found exDB 99 [1]).1 (Or.inl (by decide)) (by decide),
   (link_missing_entity_not_found exDB 1 [7]).1 (Or.inr ⟨7, by decide, by decide⟩)
     (by decide)⟩

theorem link_idempotent_witness :
    ∃ db1 : DB, assignUsersToGroup exDB 2 [1, 2] = .ok db1 ∧
      assignUsersToGroup db1 2 [1, 2] = .ok db1 :=
  link_idempotent exDB 2 [1, 2] (by decide) (by decide) (by decide) (by decide)

theorem unlink_set_difference_witness :
    ∃ (db' : DB) (n : Nat),
      removeUsersFromGroup exDB 1 [3, 7] = .ok (db', n) ∧
      (∀ q : Nat × Nat, q ∈ db'.user_groups ↔
        q ∈ exDB.user_groups ∧ ¬(q.1 ∈ [3, 7] ∧ q.2 = 1)) ∧
      n = (exDB.user_groups.filter
        (fun q => decide (q ∈ [3, 7].map (fun u => (u, 1))))).length ∧
      ((∀ u ∈ [3, 7], (u, 1) ∉ exDB.user_groups) →
        n = 0 ∧ db'.user_groups = exDB.user_groups) :=
  unlink_set_difference exDB 1 [3, 7] (by decide)

theorem createModule_side_effects_witness :
    ∃ db' : DB, createModule exDB "Billing" none = .ok (db', exDB.nextModuleId) ∧
      (db'.permissions.filter (fun p => p.module_id == exDB.nextModuleId)).map
          (fun p => p.action) = defaultActions ∧
      (db'.permissions.filter (fun p => p.module_id == exDB.nextModuleId)).length = 4 :=
  (createModule_side_effects exDB).1 (by decide) "Billing" none (by decide)

theorem deleteUser_self_rejected_witness :
    deleteUser exDB 1 1 = .error .selfDeletion ∧
    deleteUser exDB 1 2 = .ok { exDB with
      users := exDB.users.filter (fun u => u.id != 2),
      user_groups := exDB.user_groups.filter (fun q => q.1 != 2) } :=
  ⟨(deleteUser_self_rejected exDB 1 1 (by decide)).1 rfl,
   (deleteUser_self_rejected exDB 1 2 (by decide)).2 (by decide)⟩

theorem link_duplicate_id_rejected_witness :
    assignUsersToGroup exDB 1 [2, 2] =
      .error (.notFound "One or more users not found") :=
  (link_duplicate_id_rejected exDB 1 [2, 2] (by decide)).1 (by decide) (by decide)
    (by decide)

end IAM
